import Mathlib

/- Shallow embedding of the DeeperSeek driver
   (src/DeeperSeek/DeeperSeek.py, src/DeeperSeek/internal/selectors.py).

   The browser/DOM is external: every observation the code makes through the
   zendriver probe (evaluate / select / wait_for / select_all) is a field of an
   explicit environment record, one record per operation.  Python exceptions
   are an error type `PyErr`; an operation returns `Except PyErr α` together
   with the updated session state and a coarse trace of probe actions (the
   trace records that probe calls happened, with the navigation URL kept,
   because several claims require that a failing guard performs no action).
   Time in the response-polling loops is measured in half-second units, so
   that both poll intervals of the source (0.5 s and 1 s) are integral. -/

/-- Python truthiness of an optional string attribute: `None` and `""` are
falsy, every other string truthy. -/
def truthyStr : Option String → Bool
  | none => false
  | some s => !(s == "")

def charsPrefix : List Char → List Char → Bool
  | [], _ => true
  | _ :: _, [] => false
  | a :: as, b :: bs => a == b && charsPrefix as bs

def charsSub (needle : List Char) : List Char → Bool
  | [] => charsPrefix needle []
  | b :: bs => charsPrefix needle (b :: bs) || charsSub needle bs

/-- JavaScript `hay.includes(needle)` / substring containment. -/
def jsIncludes (hay needle : String) : Bool :=
  charsSub needle.data hay.data

/-- Python `str.lower()` / JavaScript `toLowerCase()` (ASCII-faithful). -/
def pyLower (s : String) : String :=
  ⟨s.data.map Char.toLower⟩

/-- The exceptions the module can raise.  The first six are the classes
imported from `internal.exceptions` (a file of the repository that is not
under src/; each is a plain Exception subclass carrying its message).
`attributeError` and `indexError` stand for Python's built-in AttributeError
and IndexError, `timeoutError` for the timeout a probe `select`/`wait_for`
raises when no element appears. -/
inductive PyErr where
  | missingCredentials (msg : String)
  | invalidCredentials (msg : String)
  | missingInitialization (msg : String)
  | couldNotFindElement (msg : String)
  | invalidChatID (msg : String)
  | serverDown (msg : String)
  | attributeError (attr : String)
  | indexError
  | timeoutError
  deriving DecidableEq

deriving instance DecidableEq for Except

/-- The exception's class, message stripped. -/
def errKind : PyErr → String
  | .missingCredentials _ => "MissingCredentials"
  | .invalidCredentials _ => "InvalidCredentials"
  | .missingInitialization _ => "MissingInitialization"
  | .couldNotFindElement _ => "CouldNotFindElement"
  | .invalidChatID _ => "InvalidChatID"
  | .serverDown _ => "ServerDown"
  | .attributeError _ => "AttributeError"
  | .indexError => "IndexError"
  | .timeoutError => "TimeoutError"

/-- The class of the exception an `Except` result carries, `none` on success. -/
def resKind {α : Type} : Except PyErr α → Option String
  | .ok _ => none
  | .error e => some (errKind e)

/-- Whether a result is an attribute-not-found failure. -/
def isAttrNotFound {α : Type} : Except PyErr α → Bool
  | .error (.attributeError _) => true
  | _ => false

/-- One probe action, as recorded in an operation's trace. -/
inductive Act where
  | navigate (url : String)
  | reload
  | evaluateJS
  | click
  | waitForSel
  | sendKeys
  | selectEl
  deriving DecidableEq

/-- The session object (`DeepSeek` instance state).  Fields are the instance
attributes `__init__` sets, plus `_is_active` (created by `initialize`,
modelled false before that) and the stray public attribute `chat_id` that
only `reset_chat` ever creates (modelled `none` while it does not exist).
`_chrome_args` and the selector table are constants and are not modelled. -/
structure Session where
  _email : Option String
  _password : Option String
  _token : Option String
  _chat_id : Option String
  _headless : Bool
  _verbose : Bool
  _attempt_cf_bypass : Bool
  _deepthink_enabled : Bool
  _search_enabled : Bool
  _initialized : Bool
  _is_active : Bool
  chat_id : Option String
  deriving DecidableEq

def initMsg : String := "You must run the initialize method before using this method."

def credMsg : String := "Either the token alone or the email and password both must be provided"

/-- `DeepSeek.__init__` (DeeperSeek.py lines 20-72): raises MissingCredentials
unless a truthy token, or truthy email and password both, are supplied
(`if not token and not (email and password)`), then stores the arguments. -/
def deepSeekInit (token email password chatId : Option String)
    (headless verbose attemptCf : Bool) : Except PyErr Session :=
  if !truthyStr token && !(truthyStr email && truthyStr password) then
    .error (.missingCredentials credMsg)
  else
    .ok { _email := email, _password := password, _token := token,
          _chat_id := chatId, _headless := headless, _verbose := verbose,
          _attempt_cf_bypass := attemptCf, _deepthink_enabled := false,
          _search_enabled := false, _initialized := false,
          _is_active := false, chat_id := none }

/-- Every method the class `DeepSeek` defines, read off DeeperSeek.py.  In
particular neither `find_send_options` (called at line 783) nor
`find_response_elements` (called at line 904) is in this list, nor is either
defined anywhere else in the source. -/
def definedMethods : List String :=
  ["__init__", "initialize", "_keep_alive", "__del__", "_login",
   "_login_classic", "_find_child_by_text", "retrieve_token", "send_message",
   "regenerate_response", "_filter_search_results", "_get_response",
   "reset_chat", "logout", "switch_account", "delete_chats", "switch_chat",
   "switch_theme", "_find_element_by_js", "find_textbox", "find_send_button"]

/-- Python attribute lookup `self.<name>` for a method: AttributeError when
the class defines no such method (no instance attribute of these names is
ever assigned either). -/
def attrLookup (name : String) : Except PyErr Unit :=
  if definedMethods.contains name then .ok () else .error (.attributeError name)

/- ===== Element locator (find_textbox, lines 1317-1380) ===== -/

/-- A rendered element as far as the locator JavaScript observes it.  `tag` is
stored lowercase (the JS lowercases `tagName`), `contentEditableTrue` is
whether the attribute selector `div[contenteditable="true"]` matches, and
`bottom`/`height`/`width` come from `getBoundingClientRect`. -/
structure Elem where
  tag : String
  idAttr : String
  className : String
  placeholder : String
  contentEditableTrue : Bool
  bottom : Int
  height : Int
  width : Int
  deriving DecidableEq

/-- A page, as the locator sees it: `window.innerHeight` plus the elements in
document order. -/
structure Dom where
  winH : Int
  elems : List Elem
  deriving DecidableEq

/-- The CSS selector string the locator JS builds:
`tag` + optional `#id` + optional `.firstClassToken`, kept as data. -/
structure Sel where
  tag : String
  idSel : Option String
  clsSel : Option String
  deriving DecidableEq

/-- Selector construction in the JS (`tagName.toLowerCase() + (id ? ...) +
(className ? ...)`, with `className.split(' ')[0]`). -/
def selectorOf (e : Elem) : Sel :=
  { tag := e.tag,
    idSel := if e.idAttr == "" then none else some e.idAttr,
    clsSel := if e.className == "" then none
              else some ((e.className.splitOn " ").headD "") }

/-- CSS matching of the generated `tag#id.cls` selector against an element
(`.cls` matches membership in the class list). -/
def matchesSel (q : Sel) (e : Elem) : Bool :=
  e.tag == q.tag &&
  (match q.idSel with | none => true | some i => e.idAttr == i) &&
  (match q.clsSel with | none => true
                       | some c => (e.className.splitOn " ").contains c)

/-- `browser.main_tab.select(selector, timeout)` over a static page: the first
matching element in document order, or the timeout error when none exists. -/
def selectFirst (d : Dom) (q : Sel) : Except PyErr Elem :=
  match d.elems.find? (matchesSel q) with
  | some e => .ok e
  | none => .error .timeoutError

/-- Tier-1 predicate of the locator JS: a textarea whose truthy placeholder
contains "message", "chat" or "ask" (lowercased). -/
def placeholderPred (e : Elem) : Bool :=
  !(e.placeholder == "") &&
    (jsIncludes (pyLower e.placeholder) ("message") ||
     jsIncludes (pyLower e.placeholder) ("chat") ||
     jsIncludes (pyLower e.placeholder) ("ask"))

/-- Tier-2 score `(window.innerHeight - rect.bottom) + rect.height *
rect.width * 0.01`, scaled by 100 to stay integral (the scaling preserves the
comparator's sign). -/
def textScore (winH : Int) (e : Elem) : Int :=
  (winH - e.bottom) * 100 + e.height * e.width

/-- `textareas.sort(cmp)[0]` for the ascending comparator `aScore - bScore`
(stable sort): the lowest-scoring element, earliest in document order among
ties. -/
def argminScore (winH : Int) (l : List Elem) : Option Elem :=
  match l with
  | [] => none
  | e :: es => some (es.foldl (fun b x =>
      if textScore winH x < textScore winH b then x else b) e)

def isEditableDiv (e : Elem) : Bool :=
  e.tag == "div" && e.contentEditableTrue

/-- The locator JavaScript of find_textbox (lines 1319-1366): placeholder
match among textareas, else lowest-scoring textarea, else the first
`div[contenteditable="true"]`, else null. -/
def textboxJS (d : Dom) : Option Sel :=
  let textareas := d.elems.filter (fun e => e.tag == "textarea")
  match textareas.find? placeholderPred with
  | some e => some (selectorOf e)
  | none =>
    match argminScore d.winH textareas with
    | some e => some (selectorOf e)
    | none =>
      match (d.elems.filter isEditableDiv).head? with
      | some e => some (selectorOf e)
      | none => none

/-- The final fallback of find_textbox (lines 1376-1380): `select('textarea')`
with every failure caught, returning None. -/
def fallbackTextarea (d : Dom) : Except PyErr (Option Elem) :=
  match selectFirst d { tag := "textarea", idSel := none, clsSel := none } with
  | .ok e => .ok (some e)
  | .error _ => .ok none

/-- `find_textbox` (lines 1317-1380): run the locator JS; if it produced a
selector, `select` it (a failure is caught and falls through); then the
direct `select('textarea')` fallback, whose failure is caught and yields
None. -/
def find_textbox (d : Dom) : Except PyErr (Option Elem) :=
  match textboxJS d with
  | some q =>
    match selectFirst d q with
    | .ok e => .ok (some e)
    | .error _ => fallbackTextarea d
  | none => fallbackTextarea d

/- ===== Response synchronization (_get_response, lines 876-1114) ===== -/

/-- Modelled from the spec: the SearchResult record of `internal/objects.py`
(not under src/) — "image reference, source site label, published-date label,
ordinal index, title, description". -/
structure SearchResult where
  image_url : String
  website : String
  date : String
  index : Nat
  title : String
  description : String
  deriving DecidableEq

/-- Modelled from the spec: the Reply/Response record of
`internal/objects.py` (not under src/) — "text body, origin chat identifier,
optional reasoning duration (seconds) and reasoning text, optional ordered
list of SearchResult"; field names as at the construction site
(DeeperSeek.py lines 1105-1111). -/
structure Response where
  text : String
  chat_id : Option String
  deepthink_duration : Option Nat
  deepthink_content : Option String
  search_results : Option (List SearchResult)
  deriving DecidableEq

/-- The page as the polling loops observe it, indexed by time in half-second
units: whether a loading indicator is present, what the reply-extraction JS
returns (null or a string), and the two side-channel extractions.  An
exception inside an iteration behaves exactly like observing a persisting
indicator (the except arms only sleep and retry), so it needs no separate
field. -/
structure RespEnv where
  isGenerating : Nat → Bool
  stillGenerating : Nat → Bool
  extract : Nat → Option String
  deepthinkInfo : Option (Option Nat × Option String)
  searchResults : Option (List SearchResult)

/-- Phase 1 (lines 910-927): `while time() < end_time`, break as soon as a
loading indicator is observed, else sleep 0.5 s.  `remaining` is
`end_time - now` in half-second units; returns the time at which the loop
exits. -/
def phase1Aux (env : RespEnv) : Nat → Nat → Nat
  | now, 0 => now
  | now, r + 1 => if env.isGenerating now then now else phase1Aux env (now + 1) r

/-- One completion-phase iteration's break value (lines 941-978): if the
indicator is gone, run the extraction JS; a truthy (non-null, non-empty)
result breaks the loop. -/
def tryExtract (env : RespEnv) (now : Nat) : Option String :=
  if env.stillGenerating now then none
  else
    match env.extract now with
    | some w => if w == "" then none else some w
    | none => none

/-- Phase 2 (lines 937-983): `while time() < end_time`, break on a truthy
extraction, else sleep 1 s (two half-second units). -/
def phase2Aux (env : RespEnv) : Nat → Nat → Option String
  | _, 0 => none
  | now, r + 1 =>
    match tryExtract env now with
    | some w => some w
    | none =>
      match r with
      | 0 => none
      | r' + 1 => phase2Aux env (now + 2) r'

/-- Both polling phases in sequence: the extracted reply text, or `none` when
the deadline passes without one (phase 1's break skips its sleep, so phase 2
starts at phase 1's exit time). -/
def pollExtract (env : RespEnv) (now endTime : Nat) : Option String :=
  let t1 := phase1Aux env now (endTime - now)
  phase2Aux env t1 (endTime - t1)

def busyLower : String := "the server is busy. please try again later."

def serverBusyMsg : String := "The server is busy. Please try again later."

/-- The body of `_get_response` from line 906 on (after the
`find_response_elements` lookup of line 904, whose failure is the subject of
the missing-method analysis): poll for the reply text; no text by the
deadline returns None (lines 985-987); text equal, lowercased, to the canonical
busy message raises ServerDown (lines 989-990); otherwise the side channels
are read (only for the enabled modes; any failure yields an absent channel,
and a falsy search-result list stays absent) and the Response is built with
the session's `_chat_id` (lines 992-1114). -/
def get_response_body (s : Session) (env : RespEnv) (now endTime : Nat) :
    Except PyErr (Option Response) :=
  match pollExtract env now endTime with
  | none => .ok none
  | some w =>
    if pyLower w = busyLower then .error (.serverDown serverBusyMsg)
    else
      let dd := if s._deepthink_enabled then env.deepthinkInfo else none
      let sr := if s._search_enabled then
          match env.searchResults with
          | some l => if l.isEmpty then none else some l
          | none => none
        else none
      .ok (some { text := w, chat_id := s._chat_id,
                  deepthink_duration := match dd with | some p => p.1 | none => none,
                  deepthink_content := match dd with | some p => p.2 | none => none,
                  search_results := sr })

/-- `_get_response` (lines 876-1114): the MissingInitialization guard (lines
898-899), the deadline `end_time = time() + timeout` (line 901; half-second
units, so `2 * timeout`), then line 904's `await
self.find_response_elements()` — an attribute lookup of a method defined
nowhere in the source; were the method defined, its result is unused and the
rest of the body is `get_response_body`.  `regen` only changes log text. -/
def get_response (s : Session) (env : RespEnv) (now timeout : Nat)
    (regen : Bool) : Except PyErr (Option Response) :=
  if s._initialized then
    let endTime := now + 2 * timeout
    match attrLookup ("find_response_elements") with
    | .error e => .error e
    | .ok _ => get_response_body s env now endTime
  else .error (.missingInitialization initMsg)

/-- Lines 763-764: `timeout += 20 if deepthink else 0; timeout += 60 if
search else 0`. -/
def effectiveTimeout (timeout : Nat) (deepthink search : Bool) : Nat :=
  (timeout + (if deepthink then 20 else 0)) + (if search then 60 else 0)

structure SendEnv where
  dom : Dom
  deriving DecidableEq

/-- `send_message` (lines 727-806): the MissingInitialization guard (760-761);
the timeout surcharges (763-764) compute `effectiveTimeout timeout deepthink
search`, which would be passed to `_get_response` at line 806; `find_textbox`
(769-773, CouldNotFindElement when None); typing the message (775-780; slow
mode only paces keystrokes); then line 783 `await self.find_send_options()` —
no method of this name is defined anywhere in the source (see
`definedMethods`), so the attribute lookup raises AttributeError, and lines
786-806 (option toggling, send click, `_get_response`) are unreachable, their
callee having no body to translate. -/
def send_message (s : Session) (env : SendEnv) (message : String)
    (slowMode deepthink search : Bool) (timeout : Nat) :
    Except PyErr (Option Response) × Session × List Act :=
  if s._initialized then
    match find_textbox env.dom with
    | .error e => (.error e, s, [.evaluateJS])
    | .ok none => (.error (.couldNotFindElement ("Could not find textbox")), s, [.evaluateJS])
    | .ok (some _) => (.error (.attributeError ("find_send_options")), s, [.evaluateJS, .sendKeys])
  else (.error (.missingInitialization initMsg), s, [])

/-- What `regenerate_response` observes: the outcome of
`select_all(self.selectors.interactions.response_toolbar)` — that selector is
None in `DeepSeekSelectors`, so the probe's behaviour is environment-supplied
— with each found toolbar element abstracted to its number of children. -/
structure RegenEnv where
  toolbar : Except PyErr (List Nat)
  resp : RespEnv

/-- `regenerate_response` (lines 808-832): the guard (825-826); select the
response toolbars and click `toolbar[-1].children[1]` (829-830; IndexError on
an empty list or fewer than two children); then `_get_response(timeout,
regen=True)`. -/
def regenerate_response (s : Session) (env : RegenEnv) (now timeout : Nat) :
    Except PyErr (Option Response) × Session × List Act :=
  if s._initialized then
    match env.toolbar with
    | .error e => (.error e, s, [.selectEl])
    | .ok tb =>
      match tb.getLast? with
      | none => (.error .indexError, s, [.selectEl])
      | some childCount =>
        if childCount < 2 then (.error .indexError, s, [.selectEl])
        else (get_response s env.resp now timeout true, s, [.selectEl, .click])
  else (.error (.missingInitialization initMsg), s, [])

/- ===== Session lifecycle operations ===== -/

/-- `logout` (lines 1132-1150): guard, then remove the stored token
(evaluate) and reload; no session field changes. -/
def logout (s : Session) : Except PyErr Unit × Session × List Act :=
  if s._initialized then (.ok (), s, [.evaluateJS, .reload])
  else (.error (.missingInitialization initMsg), s, [])

/-- `switch_theme` (lines 1271-1294): guard, then store the theme preference
(evaluate) and reload; no session field changes.  `themeValue` is the theme's
string value. -/
def switch_theme (s : Session) (themeValue : String) :
    Except PyErr Unit × Session × List Act :=
  if s._initialized then (.ok (), s, [.evaluateJS, .reload])
  else (.error (.missingInitialization initMsg), s, [])

/-- The probe outcome `retrieve_token`'s evaluate produces (the page JS
`JSON.parse(localStorage.getItem('userToken')).value` can itself fail). -/
structure RetrieveEnv where
  tokenValue : Except PyErr (Option String)
  deriving DecidableEq

/-- `retrieve_token` (lines 705-724): guard, then return what the evaluate
yields. -/
def retrieve_token (s : Session) (env : RetrieveEnv) :
    Except PyErr (Option String) × Session × List Act :=
  if s._initialized then (env.tokenValue, s, [.evaluateJS])
  else (.error (.missingInitialization initMsg), s, [])

/-- The probe outcome of `select(self.selectors.interactions.reset_chat_button)`
(that selector is None in `DeepSeekSelectors`, so the probe's behaviour is
environment-supplied). -/
structure ResetEnv where
  resetButton : Except PyErr Unit
  deriving DecidableEq

/-- `reset_chat` (lines 1116-1130): guard; select and click the reset
button; then `self.chat_id = ""` — the stray public attribute, NOT the
internal `_chat_id` every Response is built from.  No other field changes. -/
def reset_chat (s : Session) (env : ResetEnv) :
    Except PyErr Unit × Session × List Act :=
  if s._initialized then
    match env.resetButton with
    | .error e => (.error e, s, [.selectEl])
    | .ok _ => (.ok (), { s with chat_id := some "" }, [.selectEl, .click])
  else (.error (.missingInitialization initMsg), s, [])

/-- What `switch_chat` observes: whether the textbox appears within the
bounded wait, and the page URL after navigation (the evaluate runs
`window.location.href.includes(chat_id)` against it). -/
structure SwitchChatEnv where
  textboxAppears : Bool
  resultingUrl : String
  deriving DecidableEq

def chatUrl (chatId : String) : String :=
  "https://chat.deepseek.com/a/chat/s/" ++ chatId

/-- `switch_chat` (lines 1232-1269): guard; navigate to the chat-by-id route;
wait for the textbox (CouldNotFindElement on timeout); evaluate
`window.location.href.includes(chat_id)`; InvalidChatID when false (before
`_chat_id` is assigned), else `self._chat_id = chat_id`. -/
def switch_chat (s : Session) (env : SwitchChatEnv) (chatId : String) :
    Except PyErr Unit × Session × List Act :=
  if s._initialized then
    if !env.textboxAppears then
      (.error (.couldNotFindElement ("Could not find the textbox")), s,
       [.navigate (chatUrl chatId), .waitForSel])
    else if jsIncludes env.resultingUrl chatId then
      (.ok (), { s with _chat_id := some chatId },
       [.navigate (chatUrl chatId), .waitForSel, .evaluateJS])
    else
      (.error (.invalidChatID ("The chat id is invalid")), s,
       [.navigate (chatUrl chatId), .waitForSel, .evaluateJS])
  else (.error (.missingInitialization initMsg), s, [])

/-- What `delete_chats` observes: the probe outcomes of selecting the profile
button, the options dropdown and the confirm-deletion control (all their
selectors are None in `DeepSeekSelectors`, so each outcome is
environment-supplied), and whether the depth-bounded child search finds the
"Delete all chats" item. -/
structure DeleteEnv where
  profileButton : Except PyErr Unit
  dropdown : Except PyErr Unit
  deleteButtonFound : Bool
  confirmButton : Except PyErr Unit
  deriving DecidableEq

/-- `delete_chats` (lines 1195-1230): guard; click the profile button and the
options dropdown; `_find_child_by_text` for "Delete all chats"
(CouldNotFindElement when absent); click it and the confirm control. -/
def delete_chats (s : Session) (env : DeleteEnv) :
    Except PyErr Unit × Session × List Act :=
  if s._initialized then
    match env.profileButton with
    | .error e => (.error e, s, [.selectEl])
    | .ok _ =>
      match env.dropdown with
      | .error e => (.error e, s, [.selectEl, .click, .selectEl])
      | .ok _ =>
        if !env.deleteButtonFound then
          (.error (.couldNotFindElement ("Could not find the delete chats button")), s,
           [.selectEl, .click, .selectEl, .click])
        else
          match env.confirmButton with
          | .error e => (.error e, s, [.selectEl, .click, .selectEl, .click, .click, .selectEl])
          | .ok _ => (.ok (), s, [.selectEl, .click, .selectEl, .click, .click, .selectEl, .click])
  else (.error (.missingInitialization initMsg), s, [])

/- ===== Login state machine ===== -/

/-- What `_login_classic` observes, one field per decisive browser
observation (lines 200-659): whether the email field, the password field and
a login button were found and driven (steps 3, 4, 6; step 5's checkbox pass
and step 2's page-source capture are best-effort and cannot change the
outcome); whether the URL or the UI indicates success (step 7); the matched
on-page error text, if any; and whether the textbox appears after the forced
navigation of the last-resort path. -/
structure ClassicEnv where
  emailFieldFound : Bool
  passwordFieldFound : Bool
  buttonClicked : Bool
  urlSuccess : Bool
  uiSuccess : Bool
  errorText : Option String
  textboxAfterNav : Bool
  deriving DecidableEq

/-- The final classic-login failure message (lines 615, 621, 650, 656): the
only place the `token_failed` fallback flag is read. -/
def classicFailMsg (tokenFailed : Bool) : String :=
  if tokenFailed then "Both token and email/password are incorrect"
  else "The email or password is incorrect"

/-- `_login_classic` (lines 200-659), outcome-level: the guard; InvalidCredentials
when the email field, password field or login button cannot be found; then the
five-tier success classification — URL change or post-login UI markers mean
success (the subsequent navigate-to-chat dance swallows every exception and
returns normally, lines 505-564); else matched failure vocabulary raises
InvalidCredentials with the matched text; else one forced navigation to the
chat root, declaring success if the textbox then appears and otherwise raising
InvalidCredentials with the message `classicFailMsg tokenFailed`. -/
def login_classic (s : Session) (env : ClassicEnv) (tokenFailed : Bool) :
    Except PyErr Unit :=
  if s._initialized then
    if !env.emailFieldFound then
      .error (.invalidCredentials ("Could not find email input field"))
    else if !env.passwordFieldFound then
      .error (.invalidCredentials ("Could not find password input field"))
    else if !env.buttonClicked then
      .error (.invalidCredentials ("Could not find or click login button"))
    else if env.urlSuccess || env.uiSuccess then .ok ()
    else
      match env.errorText with
      | some t => .error (.invalidCredentials ("Login error: " ++ t))
      | none =>
        if env.textboxAfterNav then .ok ()
        else .error (.invalidCredentials (classicFailMsg tokenFailed))
  else .error (.missingInitialization initMsg)

/-- What `_login` observes: whether the textbox becomes locatable within the
bounded settle window after injecting the token and reloading, plus the
classic-login observations for the fallback. -/
structure LoginEnv where
  tokenTextboxAppears : Bool
  classic : ClassicEnv
  deriving DecidableEq

/-- `_login` (lines 161-198): the guard; inject the token into local storage,
reload, settle; wait for the textbox (bounded).  Success returns; on failure,
fall back to `_login_classic(token_failed=True)` when `self._email and
self._password` are truthy, else raise InvalidCredentials. -/
def login_token (s : Session) (env : LoginEnv) : Except PyErr Unit :=
  if s._initialized then
    if env.tokenTextboxAppears then .ok ()
    else if truthyStr s._email && truthyStr s._password then
      login_classic s env.classic true
    else
      .error (.invalidCredentials ("The token is invalid and no email or password was provided"))
  else .error (.missingInitialization initMsg)

structure SwitchAccountEnv where
  loginEnv : LoginEnv
  deriving DecidableEq

/-- `switch_account` (lines 1152-1193): the guard; the same credential check
as `__init__` (line 1177); logout; install the new credentials; then `_login`
when the token is truthy, else `_login_classic` (no fallback flag). -/
def switch_account (s : Session) (env : SwitchAccountEnv)
    (token email password : Option String) :
    Except PyErr Unit × Session × List Act :=
  if s._initialized then
    if !truthyStr token && !(truthyStr email && truthyStr password) then
      (.error (.missingCredentials credMsg), s, [])
    else
      match logout s with
      | (.error e, s1, tr) => (.error e, s1, tr)
      | (.ok _, s1, tr) =>
        let s2 := { s1 with _token := token, _email := email, _password := password }
        if truthyStr token then (login_token s2 env.loginEnv, s2, tr ++ [.evaluateJS])
        else (login_classic s2 env.loginEnv.classic false, s2, tr ++ [.evaluateJS])
  else (.error (.missingInitialization initMsg), s, [])

/- ===== Concrete sample inputs ===== -/

/-- A session exactly as `__init__` leaves it for a token-only construction:
not yet initialized. -/
def sessUninit : Session :=
  { _email := none, _password := none, _token := some "tok", _chat_id := none,
    _headless := true, _verbose := false, _attempt_cf_bypass := true,
    _deepthink_enabled := false, _search_enabled := false,
    _initialized := false, _is_active := false, chat_id := none }

/-- The same session after `initialize` marked it active, on a current chat. -/
def sessInit : Session :=
  { sessUninit with _initialized := true, _is_active := true,
                    _chat_id := some "oldchat" }

/-- An initialized session that also has classic credentials configured. -/
def sessInitCreds : Session :=
  { sessInit with _email := some "user@mail.test", _password := some "pw" }

def domEmpty : Dom := { winH := 100, elems := [] }

def sendEnvEmpty : SendEnv := { dom := domEmpty }

def textareaElem : Elem :=
  { tag := "textarea", idAttr := "", className := "", placeholder := "",
    contentEditableTrue := false, bottom := 0, height := 0, width := 0 }

def domTextarea : Dom := { winH := 100, elems := [textareaElem] }

def sendEnvTextarea : SendEnv := { dom := domTextarea }

/-- An anonymous editable container: a div with `contenteditable="true"`, no
id, no class. -/
def editDiv : Elem :=
  { tag := "div", idAttr := "", className := "", placeholder := "",
    contentEditableTrue := true, bottom := 0, height := 0, width := 0 }

/-- A plain (non-editable) anonymous div. -/
def plainDiv : Elem := { editDiv with contentEditableTrue := false }

/-- A page holding a plain div before the single editable container, and no
textarea. -/
def domTwoDivs : Dom := { winH := 100, elems := [plainDiv, editDiv] }

/-- A page holding nothing but the single editable container. -/
def domOneEditable : Dom := { winH := 100, elems := [editDiv] }

/-- A page on which generation is observed at once and the extraction yields
the canonical busy message. -/
def respEnvBusy : RespEnv :=
  { isGenerating := fun _ => true, stillGenerating := fun _ => false,
    extract := fun _ => some serverBusyMsg, deepthinkInfo := none,
    searchResults := none }

/-- A page on which no indicator ever appears and nothing is ever extracted. -/
def respEnvNone : RespEnv :=
  { isGenerating := fun _ => false, stillGenerating := fun _ => true,
    extract := fun _ => none, deepthinkInfo := none, searchResults := none }

/-- A page whose extraction immediately yields the reply "hello". -/
def respEnvHello : RespEnv :=
  { respEnvBusy with extract := fun _ => some "hello" }

def regenEnvOk : RegenEnv := { toolbar := .ok [3], resp := respEnvNone }

def resetEnvOk : ResetEnv := { resetButton := .ok () }

def retrieveEnvOk : RetrieveEnv := { tokenValue := .ok (some "tok") }

def deleteEnvOk : DeleteEnv :=
  { profileButton := .ok (), dropdown := .ok (), deleteButtonFound := true,
    confirmButton := .ok () }

/-- A classic-login run whose URL check indicates success. -/
def classicEnvOk : ClassicEnv :=
  { emailFieldFound := true, passwordFieldFound := true, buttonClicked := true,
    urlSuccess := true, uiSuccess := false, errorText := none,
    textboxAfterNav := false }

/-- A token login on which the textbox never becomes locatable. -/
def loginEnvFail : LoginEnv :=
  { tokenTextboxAppears := false, classic := classicEnvOk }

def switchAcctEnv : SwitchAccountEnv := { loginEnv := loginEnvFail }

/-- After navigating, the URL does not echo the chat id "abc123". -/
def chatEnvBad : SwitchChatEnv :=
  { textboxAppears := true, resultingUrl := "https://chat.deepseek.com/" }

/-- After navigating, the URL echoes the chat id "abc123". -/
def chatEnvGood : SwitchChatEnv :=
  { textboxAppears := true, resultingUrl := chatUrl "abc123" }

/- ===== Claims ===== -/

/-- Claim C1: for every session whose lifecycle state is not active (the
`_initialized` flag every guard reads is false), each caller-facing operation
other than `initialize` — send_message, regenerate_response, reset_chat,
logout, switch_account, switch_chat, switch_theme, delete_chats,
retrieve_token — fails with MissingInitialization, leaves every session field
unchanged and performs no probe action (empty trace). -/
theorem claim1_uninitialized_ops_fail (s : Session) (h : s._initialized = false)
    (envS : SendEnv) (msg : String) (sm dt sr : Bool) (t : Nat)
    (envR : RegenEnv) (now t2 : Nat) (envReset : ResetEnv)
    (envA : SwitchAccountEnv) (tok em pw : Option String)
    (envC : SwitchChatEnv) (cid thv : String)
    (envD : DeleteEnv) (envT : RetrieveEnv) :
    send_message s envS msg sm dt sr t = (.error (.missingInitialization initMsg), s, [])
  ∧ regenerate_response s envR now t2 = (.error (.missingInitialization initMsg), s, [])
  ∧ reset_chat s envReset = (.error (.missingInitialization initMsg), s, [])
  ∧ logout s = (.error (.missingInitialization initMsg), s, [])
  ∧ switch_account s envA tok em pw = (.error (.missingInitialization initMsg), s, [])
  ∧ switch_chat s envC cid = (.error (.missingInitialization initMsg), s, [])
  ∧ switch_theme s thv = (.error (.missingInitialization initMsg), s, [])
  ∧ delete_chats s envD = (.error (.missingInitialization initMsg), s, [])
  ∧ retrieve_token s envT = (.error (.missingInitialization initMsg), s, []) := by
  refine ⟨?_, ?_, ?_, ?_, ?_, ?_, ?_, ?_, ?_⟩ <;>
    simp [send_message, regenerate_response, reset_chat, logout, switch_account,
          switch_chat, switch_theme, delete_chats, retrieve_token, h]

/-- Claim C1, witness: on the concrete uninitialized session, two of the
operations fail with MissingInitialization, unchanged state, empty trace. -/
theorem claim1_witness :
    sessUninit._initialized = false
  ∧ reset_chat sessUninit resetEnvOk = (.error (.missingInitialization initMsg), sessUninit, [])
  ∧ switch_chat sessUninit chatEnvGood "abc123" = (.error (.missingInitialization initMsg), sessUninit, []) := by
  refine ⟨rfl, ?_, ?_⟩
  · exact (claim1_uninitialized_ops_fail sessUninit rfl sendEnvEmpty "m" false false
      false 60 regenEnvOk 0 60 resetEnvOk switchAcctEnv none none none chatEnvGood
      "abc123" "dark" deleteEnvOk retrieveEnvOk).2.2.1
  · exact (claim1_uninitialized_ops_fail sessUninit rfl sendEnvEmpty "m" false false
      false 60 regenEnvOk 0 60 resetEnvOk switchAcctEnv none none none chatEnvGood
      "abc123" "dark" deleteEnvOk retrieveEnvOk).2.2.2.2.2.1

/-- Claim C2, counterexample: on an initialized session whose page has no
locatable textbox, send_message fails with CouldNotFindElement, which is not
an attribute-not-found error — so not every send_message call on an
initialized session fails with an attribute-not-found error. -/
theorem claim2_counterexample :
    sessInit._initialized = true
  ∧ (send_message sessInit sendEnvEmpty "hi" false false false 60).1
      = .error (.couldNotFindElement ("Could not find textbox"))
  ∧ isAttrNotFound (send_message sessInit sendEnvEmpty "hi" false false false 60).1 = false := by
  decide

/-- Claim C2 (amended): neither `find_send_options` nor
`find_response_elements` is defined anywhere in the source, so both attribute
lookups fail; consequently no send_message or regenerate_response call on an
initialized session ever returns a Reply — `_get_response` always fails with
an attribute-not-found error, and send_message fails with an
attribute-not-found error whenever its preceding textbox lookup succeeds
(when that lookup yields nothing, it fails with the textbox-not-found
error instead, as the counterexample shows). -/
theorem claim2_missing_methods :
    attrLookup ("find_send_options") = .error (.attributeError ("find_send_options"))
  ∧ attrLookup ("find_response_elements") = .error (.attributeError ("find_response_elements"))
  ∧ (∀ (s : Session) (env : SendEnv) (msg : String) (sm dt sr : Bool) (t : Nat),
      s._initialized = true →
        (∀ r, (send_message s env msg sm dt sr t).1 ≠ .ok r)
      ∧ (∀ e, find_textbox env.dom = .ok (some e) →
          (send_message s env msg sm dt sr t).1 = .error (.attributeError ("find_send_options"))))
  ∧ (∀ (s : Session) (env : RespEnv) (now t : Nat) (rg : Bool),
      s._initialized = true →
        get_response s env now t rg = .error (.attributeError ("find_response_elements")))
  ∧ (∀ (s : Session) (env : RegenEnv) (now t : Nat),
      s._initialized = true → ∀ r, (regenerate_response s env now t).1 ≠ .ok r) := by
  have ha : attrLookup ("find_response_elements")
      = .error (.attributeError ("find_response_elements")) := by decide
  refine ⟨by decide, ha, ?_, ?_, ?_⟩
  · intro s env msg sm dt sr t hs
    constructor
    · intro r
      cases hft : find_textbox env.dom with
      | error e => simp [send_message, hs, hft]
      | ok v => cases v <;> simp [send_message, hs, hft]
    · intro e hft
      simp [send_message, hs, hft]
  · intro s env now t rg hs
    simp [get_response, hs, ha]
  · intro s env now t hs r
    cases htb : env.toolbar with
    | error e => simp [regenerate_response, hs, htb]
    | ok tb =>
      cases hl : tb.getLast? with
      | none => simp [regenerate_response, hs, htb, hl]
      | some c =>
        by_cases hc : c < 2
        · simp [regenerate_response, hs, htb, hl, hc]
        · simp [regenerate_response, hs, htb, hl, hc, get_response, ha]

/-- Claim C2, witness: on a concrete initialized session whose page does hold
a textarea, send_message fails with the find_send_options attribute error,
and `_get_response` fails with the find_response_elements attribute error. -/
theorem claim2_witness :
    sessInit._initialized = true
  ∧ (send_message sessInit sendEnvTextarea "hi" false false false 60).1
      = .error (.attributeError ("find_send_options"))
  ∧ get_response sessInit respEnvNone 0 60 false
      = .error (.attributeError ("find_response_elements")) := by
  refine ⟨rfl, ?_, ?_⟩
  · exact (claim2_missing_methods.2.2.1 sessInit sendEnvTextarea "hi" false false
      false 60 rfl).2 textareaElem (by decide)
  · exact claim2_missing_methods.2.2.2.1 sessInit respEnvNone 0 60 false rfl

/-- Claim C3: whenever the polling loops extract a reply text before the
deadline and that text equals the canonical busy message "The server is busy.
Please try again later." under case-insensitive comparison, the response
protocol raises ServerDown (the server-busy error) and returns no Reply. -/
theorem claim3_busy_raises_server_down (s : Session) (env : RespEnv)
    (now endTime : Nat) (w : String)
    (hx : pollExtract env now endTime = some w)
    (hb : pyLower w = pyLower serverBusyMsg) :
    get_response_body s env now endTime = .error (.serverDown serverBusyMsg)
  ∧ ∀ r, get_response_body s env now endTime ≠ .ok r := by
  have hb2 : pyLower w = busyLower := by rw [hb]; decide
  constructor
  · simp [get_response_body, hx, hb2]
  · intro r
    simp [get_response_body, hx, hb2]

/-- Claim C3, witness: a run that extracts exactly the busy message raises
ServerDown. -/
theorem claim3_witness :
    pollExtract respEnvBusy 0 120 = some serverBusyMsg
  ∧ pyLower serverBusyMsg = pyLower serverBusyMsg
  ∧ get_response_body sessInit respEnvBusy 0 120 = .error (.serverDown serverBusyMsg) := by
  refine ⟨by decide, rfl, ?_⟩
  exact (claim3_busy_raises_server_down sessInit respEnvBusy 0 120 serverBusyMsg
    (by decide) rfl).1

/-- Claim C4: whenever the deadline expires with no reply text extracted, the
response protocol returns the absent result None and raises no error. -/
theorem claim4_deadline_returns_none (s : Session) (env : RespEnv)
    (now endTime : Nat) (hx : pollExtract env now endTime = none) :
    get_response_body s env now endTime = .ok none := by
  simp [get_response_body, hx]

/-- Claim C4, witness: a run on which nothing is ever extracted returns
`.ok none`. -/
theorem claim4_witness :
    pollExtract respEnvNone 0 8 = none
  ∧ get_response_body sessInit respEnvNone 0 8 = .ok none :=
  ⟨by decide, claim4_deadline_returns_none sessInit respEnvNone 0 8 (by decide)⟩

/-- Claim C5: the effective timeout is the base timeout plus 20 s for deep
reasoning plus 60 s for search (each only when requested), the polling
deadline is `now + effectiveTimeout` (in half-second units, `now + 2 * ...`),
and a non-busy reply text extracted strictly before that deadline is returned
as the Reply rather than discarded. -/
theorem claim5_timeout_surcharges (t : Nat) (s : Session) (env : RespEnv)
    (now : Nat) (w : String)
    (hx : pollExtract env now (now + 2 * effectiveTimeout t true true) = some w)
    (hnb : pyLower w ≠ busyLower) :
    effectiveTimeout t true true = t + 20 + 60
  ∧ effectiveTimeout t true false = t + 20
  ∧ effectiveTimeout t false true = t + 60
  ∧ effectiveTimeout t false false = t
  ∧ ∃ r, get_response_body s env now (now + 2 * effectiveTimeout t true true)
        = .ok (some r) ∧ r.text = w := by
  refine ⟨by simp [effectiveTimeout], by simp [effectiveTimeout],
          by simp [effectiveTimeout], by simp [effectiveTimeout], ?_⟩
  simp only [get_response_body, hx]
  rw [if_neg hnb]
  exact ⟨_, rfl, rfl⟩

/-- Claim C5, witness: with base timeout 1 and both modes on, the deadline is
2 * 81 half-seconds, and a reply extracted at once is returned. -/
theorem claim5_witness :
    pollExtract respEnvHello 0 (0 + 2 * effectiveTimeout 1 true true) = some "hello"
  ∧ pyLower "hello" ≠ busyLower
  ∧ effectiveTimeout 1 true true = 1 + 20 + 60
  ∧ ∃ r, get_response_body sessInit respEnvHello 0 (0 + 2 * effectiveTimeout 1 true true)
        = .ok (some r) ∧ r.text = "hello" := by
  refine ⟨by decide, by decide, ?_, ?_⟩
  · exact (claim5_timeout_surcharges 1 sessInit respEnvHello 0 "hello"
      (by decide) (by decide)).1
  · exact (claim5_timeout_surcharges 1 sessInit respEnvHello 0 "hello"
      (by decide) (by decide)).2.2.2.2

/-- Helper: the classic-login `token_failed` fallback flag never changes the
outcome or the exception's class, only the final failure message. -/
theorem login_classic_kind_ignores_flag (s : Session) (env : ClassicEnv) :
    resKind (login_classic s env true) = resKind (login_classic s env false) := by
  rcases env with ⟨ef, pf, bc, us, ui, et, tb⟩
  unfold login_classic
  by_cases hi : s._initialized <;> simp [hi] <;>
    cases ef <;> cases pf <;> cases bc <;> cases us <;> cases ui <;> cases et <;>
    cases tb <;> simp [resKind, errKind, classicFailMsg]

/-- Claim C6: for every token-login attempt on which the textbox does not
become locatable within the bounded settle window — if both email and
password are configured (truthy), the engine falls back to classic login with
the `token_failed` flag set, that flag changes nothing but the final failure
message, and classic-login success surfaces no error; if email and password
are not both configured, the attempt fails with InvalidCredentials. -/
theorem claim6_token_fallback (s : Session) (env : LoginEnv)
    (hi : s._initialized = true) (hfail : env.tokenTextboxAppears = false) :
    ((truthyStr s._email && truthyStr s._password) = true →
        login_token s env = login_classic s env.classic true
      ∧ (login_classic s env.classic true = .ok () → login_token s env = .ok ())
      ∧ resKind (login_classic s env.classic true)
          = resKind (login_classic s env.classic false))
  ∧ ((truthyStr s._email && truthyStr s._password) = false →
      login_token s env
        = .error (.invalidCredentials ("The token is invalid and no email or password was provided"))) := by
  constructor
  · intro hc
    refine ⟨?_, ?_, login_classic_kind_ignores_flag s env.classic⟩
    · simp [login_token, hi, hfail, hc]
    · intro hok
      simp [login_token, hi, hfail, hc, hok]
  · intro hc
    simp [login_token, hi, hfail, hc]

/-- Claim C6, witness: a concrete failed token login with credentials
configured falls back to classic login and, the classic login succeeding (by
URL change), surfaces no error. -/
theorem claim6_witness :
    sessInitCreds._initialized = true
  ∧ loginEnvFail.tokenTextboxAppears = false
  ∧ (truthyStr sessInitCreds._email && truthyStr sessInitCreds._password) = true
  ∧ login_token sessInitCreds loginEnvFail = login_classic sessInitCreds loginEnvFail.classic true
  ∧ login_token sessInitCreds loginEnvFail = .ok () := by
  refine ⟨rfl, rfl, by decide, ?_, ?_⟩
  · exact ((claim6_token_fallback sessInitCreds loginEnvFail rfl rfl).1 (by decide)).1
  · exact ((claim6_token_fallback sessInitCreds loginEnvFail rfl rfl).1 (by decide)).2.1 (by decide)

/-- Claim C7: for every chat identifier, `switch_chat` navigates to the
chat-by-id route and (once the textbox wait succeeds) checks whether the
resulting page URL contains the identifier: when it does not, it raises
InvalidChatID and leaves the session — in particular its current `_chat_id` —
unchanged; when it does, it updates `_chat_id` to the identifier. -/
theorem claim7_switch_chat (s : Session) (env : SwitchChatEnv) (cid : String)
    (hi : s._initialized = true) (htb : env.textboxAppears = true) :
    Act.navigate (chatUrl cid) ∈ (switch_chat s env cid).2.2
  ∧ (jsIncludes env.resultingUrl cid = false →
        (switch_chat s env cid).1 = .error (.invalidChatID ("The chat id is invalid"))
      ∧ (switch_chat s env cid).2.1 = s)
  ∧ (jsIncludes env.resultingUrl cid = true →
        (switch_chat s env cid).1 = .ok ()
      ∧ (switch_chat s env cid).2.1 = { s with _chat_id := some cid }) := by
  refine ⟨?_, ?_, ?_⟩
  · by_cases hj : jsIncludes env.resultingUrl cid <;> simp [switch_chat, hi, htb, hj]
  · intro hj
    simp [switch_chat, hi, htb, hj]
  · intro hj
    simp [switch_chat, hi, htb, hj]

/-- Claim C7, witness: switching to "abc123" when the URL does not echo it
raises InvalidChatID with the session unchanged; when the URL echoes it, the
current chat id becomes "abc123". -/
theorem claim7_witness :
    sessInit._initialized = true
  ∧ jsIncludes chatEnvBad.resultingUrl "abc123" = false
  ∧ (switch_chat sessInit chatEnvBad "abc123").1 = .error (.invalidChatID ("The chat id is invalid"))
  ∧ (switch_chat sessInit chatEnvBad "abc123").2.1 = sessInit
  ∧ jsIncludes chatEnvGood.resultingUrl "abc123" = true
  ∧ (switch_chat sessInit chatEnvGood "abc123").2.1 = { sessInit with _chat_id := some "abc123" } := by
  refine ⟨rfl, by decide, ?_, ?_, by decide, ?_⟩
  · exact ((claim7_switch_chat sessInit chatEnvBad "abc123" rfl rfl).2.1 (by decide)).1
  · exact ((claim7_switch_chat sessInit chatEnvBad "abc123" rfl rfl).2.1 (by decide)).2
  · exact ((claim7_switch_chat sessInit chatEnvGood "abc123" rfl rfl).2.2 (by decide)).2

/-- Claim C8: whenever the token is absent (falsy) and email and password are
not both present, both session construction and `switch_account` fail with
MissingCredentials; supplying only one of email/password behaves exactly like
supplying neither; and construction succeeds whenever the token alone, or
both email and password, are supplied. -/
theorem claim8_credential_check (token email password chatId : Option String)
    (hl vb cf : Bool) (s : Session) (env : SwitchAccountEnv) :
    (truthyStr token = false → (truthyStr email && truthyStr password) = false →
        deepSeekInit token email password chatId hl vb cf
          = .error (.missingCredentials credMsg)
      ∧ (s._initialized = true →
          switch_account s env token email password
            = (.error (.missingCredentials credMsg), s, [])))
  ∧ (∀ e : Option String,
      deepSeekInit none e none chatId hl vb cf = deepSeekInit none none none chatId hl vb cf)
  ∧ (∀ p : Option String,
      deepSeekInit none none p chatId hl vb cf = deepSeekInit none none none chatId hl vb cf)
  ∧ (truthyStr token = true →
      ∃ sess, deepSeekInit token email password chatId hl vb cf = .ok sess)
  ∧ ((truthyStr email && truthyStr password) = true →
      ∃ sess, deepSeekInit token email password chatId hl vb cf = .ok sess) := by
  refine ⟨?_, ?_, ?_, ?_, ?_⟩
  · intro ht hep
    constructor
    · simp [deepSeekInit, ht, hep]
    · intro hi
      simp [switch_account, hi, ht, hep]
  · intro e
    simp [deepSeekInit, truthyStr]
  · intro p
    simp [deepSeekInit, truthyStr]
  · intro ht
    simp [deepSeekInit, ht]
  · intro hep
    simp [deepSeekInit, hep]

/-- Claim C8, witness: an empty-string token (falsy, so absent in Python's
sense) together with an email but no password makes both construction and
`switch_account` fail with MissingCredentials; a truthy token alone
constructs successfully. -/
theorem claim8_witness :
    truthyStr (some "") = false
  ∧ (truthyStr (some "user@mail.test") && truthyStr none) = false
  ∧ deepSeekInit (some "") (some "user@mail.test") none none true false true
      = .error (.missingCredentials credMsg)
  ∧ switch_account sessInit switchAcctEnv (some "") (some "user@mail.test") none
      = (.error (.missingCredentials credMsg), sessInit, [])
  ∧ ∃ sess, deepSeekInit (some "tok") none none none true false true = .ok sess := by
  refine ⟨by decide, by decide, ?_, ?_, ?_⟩
  · exact ((claim8_credential_check (some "") (some "user@mail.test") none none
      true false true sessInit switchAcctEnv).1 (by decide) (by decide)).1
  · exact ((claim8_credential_check (some "") (some "user@mail.test") none none
      true false true sessInit switchAcctEnv).1 (by decide) (by decide)).2 rfl
  · exact (claim8_credential_check (some "tok") none none none
      true false true sessInit switchAcctEnv).2.2.2.1 (by decide)

/-- Claim C9, counterexample: a page with exactly one anonymous editable
container and no textarea, but with a plain div standing before the container
in document order.  The locator JS builds the bare selector "div" for the
container (it is anonymous), and `select` then resolves that selector to the
FIRST div of the page — the plain one — so find_textbox does not return the
editable container. -/
theorem claim9_counterexample :
    (domTwoDivs.elems.filter (fun e => e.tag == "textarea")) = []
  ∧ (domTwoDivs.elems.filter isEditableDiv) = [editDiv]
  ∧ editDiv.idAttr = "" ∧ editDiv.className = ""
  ∧ find_textbox domTwoDivs = .ok (some plainDiv)
  ∧ plainDiv ≠ editDiv := by
  decide

/-- Claim C9 (amended): on every page with no textarea and exactly one
anonymous editable container which is also the first div of the page in
document order, find_textbox returns that container through its lowest
fallback tier (when another div precedes the container, the derived selector
"div" resolves to that earlier div instead, as the counterexample shows); and
on every page whatsoever find_textbox never raises — absence is signalled by
a `none` result. -/
theorem claim9_editable_fallback (d : Dom) (c : Elem)
    (hnt : d.elems.filter (fun e => e.tag == "textarea") = [])
    (hed : d.elems.filter isEditableDiv = [c])
    (hid : c.idAttr = "") (hcls : c.className = "")
    (hfirst : d.elems.find? (fun e => e.tag == "div") = some c) :
    find_textbox d = .ok (some c)
  ∧ ∀ d2 : Dom, ∃ r, find_textbox d2 = .ok r := by
  constructor
  · have hmem : c ∈ d.elems.filter isEditableDiv := by
      rw [hed]
      exact List.mem_singleton_self c
    have hc : isEditableDiv c = true := (List.mem_filter.mp hmem).2
    have htag : c.tag = "div" := by
      simp [isEditableDiv] at hc
      exact hc.1
    have hjs : textboxJS d = some ⟨"div", none, none⟩ := by
      simp [textboxJS, hnt, hed, argminScore, selectorOf, hid, hcls, htag]
    have hpred : (matchesSel ⟨"div", none, none⟩) = (fun e : Elem => e.tag == "div") := by
      funext e
      simp [matchesSel]
    have hsel : selectFirst d ⟨"div", none, none⟩ = .ok c := by
      unfold selectFirst
      rw [hpred, hfirst]
    simp [find_textbox, hjs, hsel]
  · intro d2
    have hfb : ∃ r, fallbackTextarea d2 = .ok r := by
      unfold fallbackTextarea
      cases selectFirst d2 { tag := "textarea", idSel := none, clsSel := none } with
      | ok e => exact ⟨some e, rfl⟩
      | error e => exact ⟨none, rfl⟩
    cases hjs2 : textboxJS d2 with
    | none =>
      obtain ⟨r, hr⟩ := hfb
      exact ⟨r, by simp [find_textbox, hjs2, hr]⟩
    | some q =>
      cases hs2 : selectFirst d2 q with
      | ok e => exact ⟨some e, by simp [find_textbox, hjs2, hs2]⟩
      | error e =>
        obtain ⟨r, hr⟩ := hfb
        exact ⟨r, by simp [find_textbox, hjs2, hs2, hr]⟩

/-- Claim C9, witness: on the page holding nothing but the single anonymous
editable container, find_textbox returns that container. -/
theorem claim9_witness :
    (domOneEditable.elems.filter (fun e => e.tag == "textarea")) = []
  ∧ (domOneEditable.elems.filter isEditableDiv) = [editDiv]
  ∧ editDiv.idAttr = "" ∧ editDiv.className = ""
  ∧ domOneEditable.elems.find? (fun e => e.tag == "div") = some editDiv
  ∧ find_textbox domOneEditable = .ok (some editDiv) := by
  refine ⟨by decide, by decide, rfl, rfl, by decide, ?_⟩
  exact (claim9_editable_fallback domOneEditable editDiv (by decide) (by decide)
    rfl rfl (by decide)).1

/-- Claim C10: `reset_chat` (on the reset button being found and clicked)
assigns the empty string to the stray public attribute `chat_id` and changes
nothing else — in particular not the internal `_chat_id` that Response
construction reads — so a Reply built by an exchange after the reset still
carries the chat identifier that was current before it. -/
theorem claim10_reset_chat_frame (s : Session) (env : ResetEnv)
    (renv : RespEnv) (now endTime : Nat) (w : String)
    (hi : s._initialized = true) (hbtn : env.resetButton = .ok ())
    (hx : pollExtract renv now endTime = some w)
    (hnb : pyLower w ≠ busyLower) :
    reset_chat s env = (.ok (), { s with chat_id := some "" }, [.selectEl, .click])
  ∧ ({ s with chat_id := some "" })._chat_id = s._chat_id
  ∧ ∃ r, get_response_body { s with chat_id := some "" } renv now endTime
        = .ok (some r) ∧ r.chat_id = s._chat_id := by
  refine ⟨by simp [reset_chat, hi, hbtn], rfl, ?_⟩
  simp only [get_response_body, hx]
  rw [if_neg hnb]
  exact ⟨_, rfl, rfl⟩

/-- Claim C10, witness: resetting the concrete session rewrites only the
stray `chat_id` attribute, and a Reply extracted afterwards still carries the
pre-reset current chat id. -/
theorem claim10_witness :
    sessInit._initialized = true
  ∧ resetEnvOk.resetButton = .ok ()
  ∧ pollExtract respEnvHello 0 4 = some "hello"
  ∧ reset_chat sessInit resetEnvOk
      = (.ok (), { sessInit with chat_id := some "" }, [.selectEl, .click])
  ∧ ∃ r, get_response_body { sessInit with chat_id := some "" } respEnvHello 0 4
        = .ok (some r) ∧ r.chat_id = sessInit._chat_id := by
  refine ⟨rfl, rfl, by decide, ?_, ?_⟩
  · exact (claim10_reset_chat_frame sessInit resetEnvOk respEnvHello 0 4 "hello"
      rfl rfl (by decide) (by decide)).1
  · exact (claim10_reset_chat_frame sessInit resetEnvOk respEnvHello 0 4 "hello"
      rfl rfl (by decide) (by decide)).2.2
